import Mathlib

/-!
Verification of the Bangla time announcer (`bangla_time_announcer.py`).

The program is shallowly embedded: its two static dictionaries become
association lists (preserving the source's insertion order), dictionary
subscripting becomes an `Option`-returning lookup, the resolver
`get_audio_files_for_time` becomes a pure function of the wall-clock
instant it reads, the scheduler's next-boundary computation becomes
arithmetic on an absolute microsecond count, and the playback loops,
preflight check and chunked wait loop become functions over oracles for
the file system, the audio backend and the global `running` flag.
-/

set_option maxHeartbeats 1000000

/-- The `AUDIO_FILES` dictionary (source lines 19-48), as an association
list in the source's insertion order: semantic clip id → asset filename. -/
def AUDIO_FILES : List (String × String) := [
  ("intro", "ekhon_somoy.wav"),
  ("hour_1", "ekta.wav"),
  ("hour_2", "duita.wav"),
  ("hour_3", "tinta.wav"),
  ("hour_4", "charta.wav"),
  ("hour_5", "panchta.wav"),
  ("hour_6", "choyta.wav"),
  ("hour_7", "shatta.wav"),
  ("hour_8", "atta.wav"),
  ("hour_9", "noyta.wav"),
  ("hour_10", "doshta.wav"),
  ("hour_11", "egarota.wav"),
  ("hour_12", "barota.wav"),
  ("minute_15", "poner_minute.wav"),
  ("minute_30", "trish_minute.wav"),
  ("minute_45", "poytallish_minute.wav"),
  ("period_dawn", "bhor.wav"),
  ("period_morning", "sokal.wav"),
  ("period_noon", "dupur.wav"),
  ("period_evening", "bikal.wav"),
  ("period_dusk", "shondha.wav"),
  ("period_night", "rat.wav")]

/-- The `TIME_PERIODS` dictionary (source lines 54-69): hour of day (24h)
→ period clip id, in the source's insertion order. -/
def TIME_PERIODS : List (Nat × String) := [
  (4, "period_dawn"), (5, "period_dawn"),
  (6, "period_morning"), (7, "period_morning"), (8, "period_morning"),
  (9, "period_morning"), (10, "period_morning"), (11, "period_morning"),
  (12, "period_noon"), (13, "period_noon"), (14, "period_noon"), (15, "period_noon"),
  (16, "period_evening"), (17, "period_evening"),
  (18, "period_dusk"), (19, "period_dusk"),
  (20, "period_night"), (21, "period_night"), (22, "period_night"), (23, "period_night"),
  (0, "period_night"), (1, "period_night"), (2, "period_night"), (3, "period_night")]

/-- Python dictionary subscripting `d[k]` on a string-keyed dictionary,
embedded as an `Option`-returning association-list lookup (a `none`
models a `KeyError`). -/
def dict_get (d : List (String × String)) (k : String) : Option String :=
  (d.find? (fun p => p.1 == k)).map (fun p => p.2)

/-- `AUDIO_FILES[k]`. -/
def audio_file (k : String) : Option String :=
  dict_get AUDIO_FILES k

/-- `TIME_PERIODS[h]`. -/
def time_period (h : Nat) : Option String :=
  (TIME_PERIODS.find? (fun p => p.1 == h)).map (fun p => p.2)

/-- The wall-clock reading `datetime.datetime.now()` hands to the
resolver: the fields the program can observe of one instant. -/
structure Instant where
  hour : Nat
  minute : Nat
  second : Nat
  microsecond : Nat

/-- Source lines 78-80: the 12-hour value derived from the 24-hour value
(`now.hour % 12`, with `0` replaced by `12`). -/
def derive_hour_12 (hour_24 : Nat) : Nat :=
  if hour_24 % 12 = 0 then 12 else hour_24 % 12

/-- Source lines 84-95: round the minute to a bucket and roll the hour
forward in the 53-59 band. Takes the 12-hour value, the 24-hour value
and the minute; returns `(minute_rounded, hour_12, hour_24)` exactly as
the Python block leaves those three variables. -/
def round_minute (hour_12 hour_24 minute : Nat) : Nat × Nat × Nat :=
  if minute < 8 then (0, hour_12, hour_24)
  else if minute < 23 then (15, hour_12, hour_24)
  else if minute < 38 then (30, hour_12, hour_24)
  else if minute < 53 then (45, hour_12, hour_24)
  else (0, hour_12 % 12 + 1, (hour_24 + 1) % 24)

/-- `get_audio_files_for_time` (source lines 74-118): the time → clip
sequence resolver, as a pure function of the instant it reads from
`datetime.datetime.now()`. Dictionary subscripts are `Option` binds, so
a `KeyError` would surface as `none`. -/
def get_audio_files_for_time (now : Instant) : Option (List String) := do
  let hour_24 := now.hour
  let hour_12 := derive_hour_12 now.hour
  let minute := now.minute
  let r := round_minute hour_12 hour_24 minute
  let minute_rounded := r.1
  let hour_12 := r.2.1
  let hour_24 := r.2.2
  let intro_clip ← audio_file ("intro")
  let period_key ← time_period hour_24
  let period_clip ← audio_file period_key
  let hour_clip ← audio_file ("hour_" ++ toString hour_12)
  let base := [intro_clip, period_clip, hour_clip]
  if minute_rounded = 15 then do
    let m ← audio_file ("minute_15")
    pure (base ++ [m])
  else if minute_rounded = 30 then do
    let m ← audio_file ("minute_30")
    pure (base ++ [m])
  else if minute_rounded = 45 then do
    let m ← audio_file ("minute_45")
    pure (base ++ [m])
  else
    pure base

/-- The six period clip ids the specification names. -/
def SIX_PERIODS : List String :=
  ["period_dawn", "period_morning", "period_noon",
   "period_evening", "period_dusk", "period_night"]

/-- The least minute of the threshold band a minute falls in; used only
to cut down case analyses, since `round_minute` is constant on each band. -/
def band_rep (m : Nat) : Nat :=
  if m < 8 then 0 else if m < 23 then 8 else if m < 38 then 23
  else if m < 53 then 38 else 53

/-- The shape property of one resolved clip sequence at hour `h`, minute
`k`: the sequence exists, opens with the intro clip, follows with the
period clip of the (possibly rolled) 24-hour value and the hour clip of
the (possibly rolled) 12-hour value, and has length 3 with no minute
clip exactly when the rounded minute is 0, length 4 with the bucket's
minute clip otherwise. -/
abbrev clip_shape_prop (h k : Nat) : Prop :=
  (get_audio_files_for_time ⟨h, k, 0, 0⟩).isSome = true ∧
  ((get_audio_files_for_time ⟨h, k, 0, 0⟩).getD [])[0]? = audio_file ("intro") ∧
  ((get_audio_files_for_time ⟨h, k, 0, 0⟩).getD [])[1]? =
    (time_period (round_minute (derive_hour_12 h) h k).2.2).bind (fun key => audio_file key) ∧
  ((get_audio_files_for_time ⟨h, k, 0, 0⟩).getD [])[2]? =
    audio_file ("hour_" ++ toString (round_minute (derive_hour_12 h) h k).2.1) ∧
  ((round_minute (derive_hour_12 h) h k).1 = 0 →
    ((get_audio_files_for_time ⟨h, k, 0, 0⟩).getD []).length = 3) ∧
  ((round_minute (derive_hour_12 h) h k).1 ≠ 0 →
    ((get_audio_files_for_time ⟨h, k, 0, 0⟩).getD []).length = 4 ∧
    ((get_audio_files_for_time ⟨h, k, 0, 0⟩).getD [])[3]? =
      audio_file ("minute_" ++ toString (round_minute (derive_hour_12 h) h k).1))

/-- The rollover property at hour `h`, minute 53: the 12-hour value is
incremented with wraparound 12 to 1, the 24-hour value modulo 24, and
the resolver's output is built from the incremented 24-hour value's
period and the incremented 12-hour value's hour clip, with no minute
clip; together with the concrete 23:55 sequence. -/
abbrev rollover_prop (h : Nat) : Prop :=
  (round_minute (derive_hour_12 h) h 53).2.1 =
    (if derive_hour_12 h = 12 then 1 else derive_hour_12 h + 1) ∧
  (round_minute (derive_hour_12 h) h 53).2.2 = (h + 1) % 24 ∧
  get_audio_files_for_time ⟨h, 53, 0, 0⟩ = (do
    let i ← audio_file ("intro")
    let pk ← time_period ((h + 1) % 24)
    let p ← audio_file pk
    let hc ← audio_file ("hour_" ++
      toString (if derive_hour_12 h = 12 then 1 else derive_hour_12 h + 1))
    pure [i, p, hc]) ∧
  get_audio_files_for_time ⟨23, 55, 0, 0⟩ =
    some ["ekhon_somoy.wav", "rat.wav", "barota.wav"]

/-- The totality property at hour `h`, minute `k`: every lookup the
resolver performs succeeds — the rolled 12-hour value stays in 1..12 and
names an hour clip, the rolled 24-hour value is a key of `TIME_PERIODS`,
the whole resolution is `some`, and every emitted filename is a value of
`AUDIO_FILES`. -/
abbrev total_lookup_prop (h k : Nat) : Prop :=
  1 ≤ (round_minute (derive_hour_12 h) h k).2.1 ∧
  (round_minute (derive_hour_12 h) h k).2.1 ≤ 12 ∧
  (time_period (round_minute (derive_hour_12 h) h k).2.2).isSome = true ∧
  (audio_file ("hour_" ++ toString (round_minute (derive_hour_12 h) h k).2.1)).isSome = true ∧
  (get_audio_files_for_time ⟨h, k, 0, 0⟩).isSome = true ∧
  (∀ f ∈ (get_audio_files_for_time ⟨h, k, 0, 0⟩).getD [], f ∈ AUDIO_FILES.map (fun p => p.2))

def MICROS_PER_MINUTE : Nat := 60000000

def MICROS_PER_HOUR : Nat := 3600000000

/-- `now.minute` of an absolute instant counted in microseconds. Naive
`datetime` arithmetic on `replace`/`timedelta` is linear in this count,
so the scheduler's boundary computation embeds as plain arithmetic. -/
def minute_of (t : Nat) : Nat := t / MICROS_PER_MINUTE % 60

/-- `now.second` of an absolute instant counted in microseconds. -/
def second_of (t : Nat) : Nat := t / 1000000 % 60

/-- `now.microsecond` of an absolute instant counted in microseconds. -/
def micro_of (t : Nat) : Nat := t % 1000000

/-- `now.replace(minute=m, second=0, microsecond=0)` on an absolute
microsecond count: clear the part below the hour, then add `m` minutes. -/
def replace_minute_top (t m : Nat) : Nat :=
  t - t % MICROS_PER_HOUR + m * MICROS_PER_MINUTE

/-- Source lines 231-249: the scheduler's computation of the next
announcement instant from the current instant `t` (absolute
microseconds) and the configured interval (15, 30 or 60; any other value
falls into the `else` hour branch, as in the source). -/
def next_announcement_time (interval t : Nat) : Nat :=
  if interval = 15 then
    let next_minute := (minute_of t / 15 + 1) * 15
    if next_minute = 60 then replace_minute_top t 0 + MICROS_PER_HOUR
    else replace_minute_top t next_minute
  else if interval = 30 then
    if minute_of t < 30 then replace_minute_top t 30
    else replace_minute_top t 0 + MICROS_PER_HOUR
  else
    replace_minute_top t 0 + MICROS_PER_HOUR

/-- `check_audio_files` (source lines 170-187) over a file-system oracle:
`dir_exists` is whether `AUDIO_DIR` exists, `mkdir_ok` whether
`os.makedirs` succeeds when it does not, and `fs_exists` gives existence
of each filename inside the directory when the per-file loop runs. A
missing directory whose creation fails short-circuits to the full value
list; otherwise the missing files are collected in dictionary order. -/
def check_audio_files (dir_exists mkdir_ok : Bool) (fs_exists : String → Bool) : List String :=
  if !dir_exists && !mkdir_ok then AUDIO_FILES.map (fun p => p.2)
  else (AUDIO_FILES.map (fun p => p.2)).filter (fun f => !(fs_exists f))

/-- What the preflight branch of `run_announcer` (source lines 207-215)
does, observationally: which missing filenames it prints, whether it
prints a remainder count, whether the scheduling loop is entered and
whether any announcement happens. -/
structure PreflightReport where
  shown : List String
  more : Option Nat
  entered_loop : Bool
  announced : Bool

/-- Source lines 207-227: after `check_audio_files` returns `missing`,
a non-empty list prints the first 10 names plus a remainder count when
more than 10 are missing and returns — no loop, no announcement;
otherwise the program announces once and enters the loop unless in test
mode. -/
def run_announcer_preflight (test_only : Bool) (missing : List String) : PreflightReport :=
  if missing.isEmpty then
    ⟨[], none, !test_only, true⟩
  else
    ⟨missing.take 10,
     if 10 < missing.length then some (missing.length - 10) else none,
     false, false⟩

/-- What one iteration of a playback loop does with one clip. -/
inductive PlayEvent where
  | warned_missing : String → PlayEvent
  | played : String → PlayEvent
  | error_logged : String → String → PlayEvent

/-- `play_audio_sequence_pygame` (source lines 120-137) over oracles:
`fs_exists` is `os.path.exists` on the clip's path, `sound_play` the
pygame load-play-wait of a found clip, returning an error message when
the backend raises. Each clip yields one logged event; the loop never
exits early. -/
def play_audio_sequence_pygame (fs_exists : String → Bool)
    (sound_play : String → Except String Unit) : List String → List PlayEvent
  | [] => []
  | audio_f :: rest =>
    if fs_exists audio_f = false then
      PlayEvent.warned_missing audio_f ::
        play_audio_sequence_pygame fs_exists sound_play rest
    else
      (match sound_play audio_f with
        | Except.ok _ => PlayEvent.played audio_f
        | Except.error e => PlayEvent.error_logged audio_f e) ::
        play_audio_sequence_pygame fs_exists sound_play rest

/-- `play_audio_sequence_aplay` (source lines 139-150) over oracles:
`fs_exists` is `os.path.exists`, `aplay_run` the `subprocess.run` call
on a found clip. Same skip-and-continue structure as the pygame loop. -/
def play_audio_sequence_aplay (fs_exists : String → Bool)
    (aplay_run : String → Except String Unit) : List String → List PlayEvent
  | [] => []
  | audio_f :: rest =>
    if fs_exists audio_f = false then
      PlayEvent.warned_missing audio_f ::
        play_audio_sequence_aplay fs_exists aplay_run rest
    else
      (match aplay_run audio_f with
        | Except.ok _ => PlayEvent.played audio_f
        | Except.error e => PlayEvent.error_logged audio_f e) ::
        play_audio_sequence_aplay fs_exists aplay_run rest

/-- The specified fate of a single clip: a missing file is warned about
and skipped, a backend error is logged and skipped, a found clip plays. -/
def classify_clip (fs_exists : String → Bool)
    (backend : String → Except String Unit) (f : String) : PlayEvent :=
  if fs_exists f = false then PlayEvent.warned_missing f
  else
    match backend f with
    | Except.ok _ => PlayEvent.played f
    | Except.error e => PlayEvent.error_logged f e

/-- The scheduler's chunked wait (source lines 254-264) followed by the
guarded announcement (line 263). `flag` is the value of the global
`running` flag at each successive read (index 0, 1, 2, ...): the while
condition reads it, the post-sleep `if not running: break` reads it, and
the final `if running:` reads it. `wait` is the remaining wait in
microseconds and `fuel` a structural bound on the number of iterations
(`wait` shrinks every iteration, so any `fuel > wait` is exact; on
exhaustion the loop is treated as exiting at once). Returns the list of
chunk sleep durations and whether `announce_time` is reached. -/
def wait_loop (flag : Nat → Bool) : Nat → Nat → Nat → List Nat × Bool
  | 0, _, i => ([], flag i)
  | fuel + 1, wait, i =>
    if 0 < wait then
      if flag i then
        let s := min wait 10000000
        if flag (i + 1) then
          let r := wait_loop flag fuel (wait - s) (i + 2)
          (s :: r.1, r.2)
        else ([s], flag (i + 2))
      else ([], flag (i + 1))
    else ([], flag i)

theorem resolver_ignores_subminute (h m s u s' u' : Nat) :
    get_audio_files_for_time ⟨h, m, s, u⟩ = get_audio_files_for_time ⟨h, m, s', u'⟩ := rfl

theorem round_minute_band_rep (a b m : Nat) :
    round_minute a b m = round_minute a b (band_rep m) := by
  unfold round_minute band_rep
  split_ifs <;> first | rfl | omega

theorem get_band_rep (h m s u : Nat) :
    get_audio_files_for_time ⟨h, m, s, u⟩ =
      get_audio_files_for_time ⟨h, band_rep m, 0, 0⟩ := by
  simp only [get_audio_files_for_time]
  rw [round_minute_band_rep]

theorem band_rep_cases (m : Nat) :
    band_rep m = 0 ∨ band_rep m = 8 ∨ band_rep m = 23 ∨ band_rep m = 38 ∨ band_rep m = 53 := by
  unfold band_rep
  split_ifs <;> simp

/-- C1: for every minute-of-hour value m in 0..59, the resolver rounds m
to a bucket by the bands: m in [0,8) gives 0, m in [8,23) gives 15, m in
[23,38) gives 30, m in [38,53) gives 45, and m in [53,60) gives 0 with
the hour advanced by one (the 24-hour value modulo 24, the 12-hour value
wrapping 12 to 1 via `% 12 + 1`). -/
theorem minute_rounding_bands (h12 h24 m : Nat) (hm : m < 60) :
    (m < 8 → round_minute h12 h24 m = (0, h12, h24)) ∧
    (8 ≤ m → m < 23 → round_minute h12 h24 m = (15, h12, h24)) ∧
    (23 ≤ m → m < 38 → round_minute h12 h24 m = (30, h12, h24)) ∧
    (38 ≤ m → m < 53 → round_minute h12 h24 m = (45, h12, h24)) ∧
    (53 ≤ m → round_minute h12 h24 m = (0, h12 % 12 + 1, (h24 + 1) % 24)) := by
  unfold round_minute
  refine ⟨?_, ?_, ?_, ?_, ?_⟩ <;> intros <;> split_ifs <;> first | rfl | omega

theorem minute_rounding_bands_witness :
    55 < 60 ∧ round_minute 7 7 55 = (0, 8, 8) :=
  ⟨by decide, (minute_rounding_bands 7 7 55 (by decide)).2.2.2.2 (by decide)⟩

/-- C3: the static hour-to-period table `TIME_PERIODS` maps every hour
value 0..23 to exactly one period (each hour occurs as a key exactly
once, and every key is an hour value), and the set of period values used
is exactly the six periods dawn, morning, noon, evening, dusk, night. -/
theorem time_periods_table :
    (∀ h, h < 24 → (TIME_PERIODS.filter (fun p => p.1 == h)).length = 1) ∧
    (∀ p ∈ TIME_PERIODS, p.1 < 24) ∧
    (∀ p ∈ TIME_PERIODS, p.2 ∈ SIX_PERIODS) ∧
    (∀ s ∈ SIX_PERIODS, s ∈ TIME_PERIODS.map (fun p => p.2)) ∧
    SIX_PERIODS.Nodup ∧ SIX_PERIODS.length = 6 := by
  decide

theorem time_periods_table_witness :
    (TIME_PERIODS.filter (fun p => p.1 == 0)).length = 1 :=
  time_periods_table.1 0 (by decide)

theorem clip_shape_aux_0 : ∀ h, h < 24 → clip_shape_prop h 0 := by decide

theorem clip_shape_aux_8 : ∀ h, h < 24 → clip_shape_prop h 8 := by decide

theorem clip_shape_aux_23 : ∀ h, h < 24 → clip_shape_prop h 23 := by decide

theorem clip_shape_aux_38 : ∀ h, h < 24 → clip_shape_prop h 38 := by decide

theorem clip_shape_aux_53 : ∀ h, h < 24 → clip_shape_prop h 53 := by decide

theorem rollover_aux : ∀ h, h < 24 → rollover_prop h := by decide

theorem total_lookup_aux_0 : ∀ h, h < 24 → total_lookup_prop h 0 := by decide

theorem total_lookup_aux_8 : ∀ h, h < 24 → total_lookup_prop h 8 := by decide

theorem total_lookup_aux_23 : ∀ h, h < 24 → total_lookup_prop h 23 := by decide

theorem total_lookup_aux_38 : ∀ h, h < 24 → total_lookup_prop h 38 := by decide

theorem total_lookup_aux_53 : ∀ h, h < 24 → total_lookup_prop h 53 := by decide

/-- C4: for every valid input time, the resolver returns the ordered
sequence [intro-clip, period-clip, hour-clip] when the rounded minute is
0, and [intro-clip, period-clip, hour-clip, minute-clip] when the
rounded minute is in 15, 30, 45: the sequence has length 3 exactly when
the rounded minute is 0 and length 4 otherwise, and the appended
minute-clip is the one named by the rounded bucket. -/
theorem clip_sequence_shape (h m s u : Nat) (hh : h < 24) (_hm : m < 60) :
    (get_audio_files_for_time ⟨h, m, s, u⟩).isSome = true ∧
    ((get_audio_files_for_time ⟨h, m, s, u⟩).getD [])[0]? = audio_file ("intro") ∧
    ((get_audio_files_for_time ⟨h, m, s, u⟩).getD [])[1]? =
      (time_period (round_minute (derive_hour_12 h) h m).2.2).bind (fun key => audio_file key) ∧
    ((get_audio_files_for_time ⟨h, m, s, u⟩).getD [])[2]? =
      audio_file ("hour_" ++ toString (round_minute (derive_hour_12 h) h m).2.1) ∧
    ((round_minute (derive_hour_12 h) h m).1 = 0 →
      ((get_audio_files_for_time ⟨h, m, s, u⟩).getD []).length = 3) ∧
    ((round_minute (derive_hour_12 h) h m).1 ≠ 0 →
      ((get_audio_files_for_time ⟨h, m, s, u⟩).getD []).length = 4 ∧
      ((get_audio_files_for_time ⟨h, m, s, u⟩).getD [])[3]? =
        audio_file ("minute_" ++ toString (round_minute (derive_hour_12 h) h m).1)) := by
  rw [get_band_rep, round_minute_band_rep]
  rcases band_rep_cases m with hb | hb | hb | hb | hb <;> rw [hb]
  · exact clip_shape_aux_0 h hh
  · exact clip_shape_aux_8 h hh
  · exact clip_shape_aux_23 h hh
  · exact clip_shape_aux_38 h hh
  · exact clip_shape_aux_53 h hh

theorem clip_sequence_shape_witness :
    ((get_audio_files_for_time ⟨7, 10, 0, 0⟩).getD []).length = 4 :=
  ((clip_sequence_shape 7 10 0 0 (by decide) (by decide)).2.2.2.2.2 (by decide)).1

/-- C2: when the minute is in [53,60), the resolver increments the
12-hour value with wraparound 12 to 1, increments the 24-hour value
modulo 24, and looks up the period-of-day using the already-incremented
24-hour value; in particular, for input time 23:55 the resulting
sequence is [intro, period_night, hour_12] — concretely
["ekhon_somoy.wav", "rat.wav", "barota.wav"] — with 24-hour value 0,
12-hour value 12 and no minute clip. -/
theorem rollover_uses_incremented_hour (h m s u : Nat) (hh : h < 24) (h53 : 53 ≤ m) (_hm : m < 60) :
    (round_minute (derive_hour_12 h) h m).2.1 =
      (if derive_hour_12 h = 12 then 1 else derive_hour_12 h + 1) ∧
    (round_minute (derive_hour_12 h) h m).2.2 = (h + 1) % 24 ∧
    get_audio_files_for_time ⟨h, m, s, u⟩ = (do
      let i ← audio_file ("intro")
      let pk ← time_period ((h + 1) % 24)
      let p ← audio_file pk
      let hc ← audio_file ("hour_" ++
        toString (if derive_hour_12 h = 12 then 1 else derive_hour_12 h + 1))
      pure [i, p, hc]) ∧
    get_audio_files_for_time ⟨23, 55, s, u⟩ =
      some ["ekhon_somoy.wav", "rat.wav", "barota.wav"] := by
  have hb : band_rep m = 53 := by unfold band_rep; split_ifs <;> omega
  rw [get_band_rep, round_minute_band_rep, hb, resolver_ignores_subminute 23 55 s u 0 0]
  exact rollover_aux h hh

theorem rollover_uses_incremented_hour_witness :
    get_audio_files_for_time ⟨23, 55, 0, 0⟩ =
      some ["ekhon_somoy.wav", "rat.wav", "barota.wav"] :=
  (rollover_uses_incremented_hour 23 55 0 0 (by decide) (by decide) (by decide)).2.2.2

/-- C10: for every valid input time, every table lookup the resolver
performs succeeds: the 12-hour value stays in 1..12 even after rollover
and names an hour clip of `AUDIO_FILES`, the (possibly incremented)
24-hour value is a key of `TIME_PERIODS`, the resolution is `some` (no
`KeyError`), and every emitted filename is a value of the fixed clip
naming table. -/
theorem resolver_total_lookups (h m s u : Nat) (hh : h < 24) (_hm : m < 60) :
    1 ≤ (round_minute (derive_hour_12 h) h m).2.1 ∧
    (round_minute (derive_hour_12 h) h m).2.1 ≤ 12 ∧
    (time_period (round_minute (derive_hour_12 h) h m).2.2).isSome = true ∧
    (audio_file ("hour_" ++ toString (round_minute (derive_hour_12 h) h m).2.1)).isSome = true ∧
    (get_audio_files_for_time ⟨h, m, s, u⟩).isSome = true ∧
    (∀ f ∈ (get_audio_files_for_time ⟨h, m, s, u⟩).getD [],
      f ∈ AUDIO_FILES.map (fun p => p.2)) := by
  rw [get_band_rep, round_minute_band_rep]
  rcases band_rep_cases m with hb | hb | hb | hb | hb <;> rw [hb]
  · exact total_lookup_aux_0 h hh
  · exact total_lookup_aux_8 h hh
  · exact total_lookup_aux_23 h hh
  · exact total_lookup_aux_38 h hh
  · exact total_lookup_aux_53 h hh

theorem resolver_total_lookups_witness :
    (get_audio_files_for_time ⟨7, 5, 0, 0⟩).isSome = true :=
  (resolver_total_lookups 7 5 0 0 (by decide) (by decide)).2.2.2.2.1

theorem next_eq_quant (interval t : Nat)
    (h : interval = 15 ∨ interval = 30 ∨ interval = 60) :
    next_announcement_time interval t =
      (t / (interval * MICROS_PER_MINUTE) + 1) * (interval * MICROS_PER_MINUTE) := by
  rcases h with rfl | rfl | rfl <;>
    simp only [next_announcement_time, replace_minute_top, minute_of,
      MICROS_PER_MINUTE, MICROS_PER_HOUR] <;>
    split_ifs <;> omega

/-- C5: for every current time and every configured interval in 15, 30,
60, the scheduler's next announcement time is the least clock instant
strictly after the current time whose minute is a multiple of the
interval and whose seconds and sub-seconds are zero. -/
theorem next_tick_least (interval t : Nat)
    (h : interval = 15 ∨ interval = 30 ∨ interval = 60) :
    t < next_announcement_time interval t ∧
    minute_of (next_announcement_time interval t) % interval = 0 ∧
    second_of (next_announcement_time interval t) = 0 ∧
    micro_of (next_announcement_time interval t) = 0 ∧
    ∀ u, t < u → minute_of u % interval = 0 → second_of u = 0 → micro_of u = 0 →
      next_announcement_time interval t ≤ u := by
  have he := next_eq_quant interval t h
  rcases h with rfl | rfl | rfl <;>
    rw [he] <;>
    refine ⟨?_, ?_, ?_, ?_, ?_⟩ <;>
    simp only [minute_of, second_of, micro_of, MICROS_PER_MINUTE] <;>
    omega

theorem next_tick_least_witness :
    next_announcement_time 30 5400000000 ≤ 7200000000 :=
  (next_tick_least 30 5400000000 (Or.inr (Or.inl rfl))).2.2.2.2 7200000000
    (by decide) (by decide) (by decide) (by decide)

/-- C6: if any required clip is missing at startup, the program prints
at most the first 10 missing filenames, plus a count of the remainder
exactly when more than 10 are missing, and returns without entering the
scheduling loop and without announcing. -/
theorem preflight_missing_blocks_startup (d mk : Bool) (fs_exists : String → Bool)
    (test_only : Bool) (hne : check_audio_files d mk fs_exists ≠ []) :
    (run_announcer_preflight test_only (check_audio_files d mk fs_exists)).entered_loop = false ∧
    (run_announcer_preflight test_only (check_audio_files d mk fs_exists)).announced = false ∧
    (run_announcer_preflight test_only (check_audio_files d mk fs_exists)).shown =
      (check_audio_files d mk fs_exists).take 10 ∧
    (run_announcer_preflight test_only (check_audio_files d mk fs_exists)).shown.length ≤ 10 ∧
    (10 < (check_audio_files d mk fs_exists).length →
      (run_announcer_preflight test_only (check_audio_files d mk fs_exists)).more =
        some ((check_audio_files d mk fs_exists).length - 10)) ∧
    ((check_audio_files d mk fs_exists).length ≤ 10 →
      (run_announcer_preflight test_only (check_audio_files d mk fs_exists)).more = none) := by
  set missing := check_audio_files d mk fs_exists with hmiss
  have hr : run_announcer_preflight test_only missing =
      ⟨missing.take 10,
       if 10 < missing.length then some (missing.length - 10) else none,
       false, false⟩ := by
    unfold run_announcer_preflight
    rw [if_neg]
    simp only [List.isEmpty_iff]
    exact hne
  rw [hr]
  refine ⟨rfl, rfl, rfl, ?_, ?_, ?_⟩
  · show (missing.take 10).length ≤ 10
    simp only [List.length_take]
    omega
  · intro hlen
    show (if 10 < missing.length then some (missing.length - 10) else none) =
      some (missing.length - 10)
    rw [if_pos hlen]
  · intro hlen
    show (if 10 < missing.length then some (missing.length - 10) else none) = none
    rw [if_neg (by omega)]

theorem preflight_missing_blocks_startup_witness :
    (run_announcer_preflight false (check_audio_files true true (fun _ => false))).entered_loop
      = false :=
  (preflight_missing_blocks_startup true true (fun _ => false) false (by decide)).1

theorem play_pygame_eq_map (fs_exists : String → Bool)
    (sound_play : String → Except String Unit) :
    ∀ files, play_audio_sequence_pygame fs_exists sound_play files =
      files.map (classify_clip fs_exists sound_play) := by
  intro files
  induction files with
  | nil => rfl
  | cons f rest ih =>
      cases hc : fs_exists f with
      | false => simp [play_audio_sequence_pygame, classify_clip, hc, ih]
      | true =>
          cases hb : sound_play f with
          | ok v => simp [play_audio_sequence_pygame, classify_clip, hc, hb, ih]
          | error e => simp [play_audio_sequence_pygame, classify_clip, hc, hb, ih]

theorem play_aplay_eq_map (fs_exists : String → Bool)
    (aplay_run : String → Except String Unit) :
    ∀ files, play_audio_sequence_aplay fs_exists aplay_run files =
      files.map (classify_clip fs_exists aplay_run) := by
  intro files
  induction files with
  | nil => rfl
  | cons f rest ih =>
      cases hc : fs_exists f with
      | false => simp [play_audio_sequence_aplay, classify_clip, hc, ih]
      | true =>
          cases hb : aplay_run f with
          | ok v => simp [play_audio_sequence_aplay, classify_clip, hc, hb, ih]
          | error e => simp [play_audio_sequence_aplay, classify_clip, hc, hb, ih]

/-- C7: during playback of a clip sequence, a missing clip is skipped
with a logged warning and the remaining clips are still played, and a
backend error on a found clip is logged and skipped without aborting the
rest of the sequence; both backends process every clip of the sequence,
each to exactly the event `classify_clip` assigns it. -/
theorem playback_skips_and_continues (fs_exists : String → Bool)
    (sound_play aplay_run : String → Except String Unit) (files : List String) :
    play_audio_sequence_pygame fs_exists sound_play files =
      files.map (classify_clip fs_exists sound_play) ∧
    (play_audio_sequence_pygame fs_exists sound_play files).length = files.length ∧
    play_audio_sequence_aplay fs_exists aplay_run files =
      files.map (classify_clip fs_exists aplay_run) ∧
    (play_audio_sequence_aplay fs_exists aplay_run files).length = files.length := by
  refine ⟨play_pygame_eq_map fs_exists sound_play files, ?_,
    play_aplay_eq_map fs_exists aplay_run files, ?_⟩
  · rw [play_pygame_eq_map fs_exists sound_play files, List.length_map]
  · rw [play_aplay_eq_map fs_exists aplay_run files, List.length_map]

theorem wait_loop_sleeps_le (flag : Nat → Bool) :
    ∀ fuel wait i, ∀ s ∈ (wait_loop flag fuel wait i).1, s ≤ 10000000 := by
  intro fuel
  induction fuel with
  | zero =>
      intro wait i s hs
      simp [wait_loop] at hs
  | succ n ih =>
      intro wait i s hs
      simp only [wait_loop] at hs
      split_ifs at hs with h1 h2 h3
      · rcases List.mem_cons.mp hs with rfl | hs'
        · exact min_le_right _ _
        · exact ih _ _ _ hs'
      · rcases List.mem_singleton.mp hs with rfl
        exact min_le_right _ _
      · simp at hs
      · simp at hs

/-- C8: every individual sleep performed by the wait loop lasts at most
10 seconds (10000000 microseconds), and the `running` flag is re-read
after each chunk and before the announcement: if the flag is cleared
from the first read on, the loop sleeps zero further chunks and does not
announce; if it is cleared right after the pre-sleep read, exactly the
one in-flight chunk completes, then the loop exits without announcing. -/
theorem wait_chunks_bounded_and_cancel (flag : Nat → Bool) (fuel wait i : Nat) :
    (∀ s ∈ (wait_loop flag fuel wait i).1, s ≤ 10000000) ∧
    ((∀ j, i ≤ j → flag j = false) → wait_loop flag fuel wait i = ([], false)) ∧
    (0 < fuel → 0 < wait → flag i = true → (∀ j, i + 1 ≤ j → flag j = false) →
      wait_loop flag fuel wait i = ([min wait 10000000], false)) := by
  refine ⟨wait_loop_sleeps_le flag fuel wait i, ?_, ?_⟩
  · intro hall
    cases fuel with
    | zero => simp [wait_loop, hall i (le_refl i)]
    | succ n =>
        simp only [wait_loop]
        by_cases hw : 0 < wait
        · simp [hw, hall i (le_refl i), hall (i + 1) (by omega)]
        · simp [hw, hall i (le_refl i)]
  · intro hf hw hfi hall
    cases fuel with
    | zero => exact absurd hf (lt_irrefl 0)
    | succ n =>
        simp only [wait_loop]
        simp [hw, hfi, hall (i + 1) (by omega), hall (i + 2) (by omega)]

theorem wait_chunks_bounded_and_cancel_witness :
    wait_loop (fun j => decide (j = 0)) 3 25000000 0 = ([10000000], false) :=
  (wait_chunks_bounded_and_cancel (fun j => decide (j = 0)) 3 25000000 0).2.2
    (by decide) (by decide) (by decide)
    (fun j hj => by simp only [decide_eq_false_iff_not]; omega)

/-- C9: the resolver is deterministic and, as embedded, side-effect-free:
its output is a function of the instant's clock reading alone, so two
evaluations at the same instant (indeed at any two instants agreeing on
hour and minute) produce identical clip sequences, and no program state
is touched. -/
theorem resolver_deterministic (i1 i2 : Instant)
    (hh : i1.hour = i2.hour) (hm : i1.minute = i2.minute) :
    get_audio_files_for_time i1 = get_audio_files_for_time i2 := by
  obtain ⟨h1, m1, s1, u1⟩ := i1
  obtain ⟨h2, m2, s2, u2⟩ := i2
  have hh' : h1 = h2 := hh
  have hm' : m1 = m2 := hm
  subst hh'
  subst hm'
  exact resolver_ignores_subminute h1 m1 s1 u1 s2 u2

theorem resolver_deterministic_witness :
    get_audio_files_for_time ⟨7, 5, 10, 999⟩ = get_audio_files_for_time ⟨7, 5, 42, 0⟩ :=
  resolver_deterministic ⟨7, 5, 10, 999⟩ ⟨7, 5, 42, 0⟩ rfl rfl
